import Mathlib

/-!
# Verification of the disk-backed response cache of SA-Validation_Prototype

Shallow embedding of the cache layer shared by `src/utils/paper_collector.py`
(`PaperCollector`) and `src/utils/llm_analyzer.py` (`LLMAnalyzer`), together
with the cache-using operations `search_semantic_scholar`, `analyze_paper`
and `batch_analyze`.

Modelling conventions:
* JSON-serializable Python values are the inductive `Json` (numbers as `Int`;
  the claims under study never involve floating point).
* The cache directory is a map from file names to file data
  (`CacheState := String → Option FileData`); the file system itself
  guarantees at most one file per name, which the function type reflects.
* A stored file's bytes are abstracted by `Content`: either the
  serialization of a JSON value (what `json.dump` wrote and `json.load`
  recovers), or decodable-but-malformed text (on which `json.load` raises
  `json.JSONDecodeError`), or an unreadable file (opening/decoding raises an
  `OSError`/`UnicodeDecodeError`, which is *not* a `JSONDecodeError`).
* Timestamps are integers (seconds); `timedelta(hours=h)` is `3600 * h`.
* Machine-level hashing (`hashlib.md5(...).hexdigest()`) is embedded as a
  full executable MD5 over `Nat` bytes (arithmetic mod 2^32).
* Exceptions that escape a Python function are `Except PyErr`; every cache
  operation is written in state-passing style, returning its result together
  with the cache state after the call.
-/

namespace SAV

/-- JSON-serializable Python values (`dict` / `list` / scalars), as produced
by `json.load` and consumed by `json.dump`.  Object fields keep insertion
order, as Python dicts do. -/
inductive Json where
  | null : Json
  | bool (b : Bool) : Json
  | num (n : Int) : Json
  | str (s : String) : Json
  | arr (elems : List Json) : Json
  | obj (fields : List (String × Json)) : Json

/-- Python truthiness (`if cached:`): `None`, `False`, `0`, `""`, `[]`, `{}`
are falsy, everything else truthy. -/
def Json.isTruthy : Json → Bool
  | .null => false
  | .bool b => b
  | .num n => n != 0
  | .str s => s != ""
  | .arr l => !l.isEmpty
  | .obj l => !l.isEmpty

mutual

/-- Python `repr` of a JSON-shaped value (used by `str` on containers).
String-escaping corner cases of CPython's `repr` are not reproduced; no
claim depends on them. -/
def pyRepr : Json → String
  | .null => "None"
  | .bool true => "True"
  | .bool false => "False"
  | .num n => toString n
  | .str s => "'" ++ s ++ "'"
  | .arr l => "[" ++ pyReprList l ++ "]"
  | .obj l => "\x7b" ++ pyReprFields l ++ "\x7d"

def pyReprList : List Json → String
  | [] => ""
  | [x] => pyRepr x
  | x :: y :: xs => pyRepr x ++ ", " ++ pyReprList (y :: xs)

def pyReprFields : List (String × Json) → String
  | [] => ""
  | [(k, v)] => "'" ++ k ++ "': " ++ pyRepr v
  | (k, v) :: y :: xs => "'" ++ k ++ "': " ++ pyRepr v ++ ", " ++ pyReprFields (y :: xs)

end

/-- Python `str()` as used inside f-strings (`f"{paper_id}_..."`): bare text
for strings, `repr`-like rendering otherwise. -/
def pyStr : Json → String
  | .str s => s
  | v => pyRepr v

/-! ## MD5 (`hashlib.md5(...).hexdigest()`), executable over `Nat` bytes -/

/-- 2^32, the word modulus of MD5. -/
def m32 : Nat := 4294967296

/-- 32-bit rotate left (operand assumed < 2^32). -/
def rotl (x c : Nat) : Nat := ((x <<< c) % m32) ||| (x >>> (32 - c))

/-- MD5 round constants `K[i] = floor(|sin(i+1)| * 2^32)`. -/
def md5K : List Nat := [
  3614090360, 3905402710, 606105819, 3250441966,
  4118548399, 1200080426, 2821735955, 4249261313,
  1770035416, 2336552879, 4294925233, 2304563134,
  1804603682, 4254626195, 2792965006, 1236535329,
  4129170786, 3225465664, 643717713, 3921069994,
  3593408605, 38016083, 3634488961, 3889429448,
  568446438, 3275163606, 4107603335, 1163531501,
  2850285829, 4243563512, 1735328473, 2368359562,
  4294588738, 2272392833, 1839030562, 4259657740,
  2763975236, 1272893353, 4139469664, 3200236656,
  681279174, 3936430074, 3572445317, 76029189,
  3654602809, 3873151461, 530742520, 3299628645,
  4096336452, 1126891415, 2878612391, 4237533241,
  1700485571, 2399980690, 4293915773, 2240044497,
  1873313359, 4264355552, 2734768916, 1309151649,
  4149444226, 3174756917, 718787259, 3951481745]

/-- MD5 per-round shift amounts. -/
def md5S : List Nat := [
  7, 12, 17, 22, 7, 12, 17, 22, 7, 12, 17, 22, 7, 12, 17, 22,
  5, 9, 14, 20, 5, 9, 14, 20, 5, 9, 14, 20, 5, 9, 14, 20,
  4, 11, 16, 23, 4, 11, 16, 23, 4, 11, 16, 23, 4, 11, 16, 23,
  6, 10, 15, 21, 6, 10, 15, 21, 6, 10, 15, 21, 6, 10, 15, 21]

/-- Little-endian bytes of a 32-bit word group. -/
def leBytes : Nat → Nat → List Nat
  | 0, _ => []
  | k + 1, v => v % 256 :: leBytes k (v / 256)

/-- Group a byte list into little-endian 32-bit words. -/
def toWords : List Nat → List Nat
  | b0 :: b1 :: b2 :: b3 :: rest =>
    (b0 + 256 * (b1 + 256 * (b2 + 256 * b3))) :: toWords rest
  | _ => []

/-- Split a byte list into 64-byte blocks; structural on a fuel argument so
that the kernel can evaluate it.  Each step consumes 64 bytes but only one
unit of fuel, so fuel equal to the list length (as supplied by `chunk64`)
never runs out before the list does. -/
def chunkAux : Nat → List Nat → List (List Nat)
  | _, [] => []
  | 0, _ :: _ => []
  | f + 1, x :: xs => (x :: xs).take 64 :: chunkAux f ((x :: xs).drop 64)

/-- Split a byte list into 64-byte blocks. -/
def chunk64 (l : List Nat) : List (List Nat) := chunkAux l.length l

/-- One MD5 round: mixes round `i` into the running state `(a, b, c, d)`
using the message words `M` of the current block. -/
def md5Round (M : List Nat) (st : Nat × Nat × Nat × Nat) (i : Nat) :
    Nat × Nat × Nat × Nat :=
  let (a, b, c, d) := st
  let fg : Nat × Nat :=
    if i < 16 then ((b &&& c) ||| ((b ^^^ (m32 - 1)) &&& d), i)
    else if i < 32 then ((d &&& b) ||| ((d ^^^ (m32 - 1)) &&& c), (5 * i + 1) % 16)
    else if i < 48 then (b ^^^ c ^^^ d, (3 * i + 5) % 16)
    else (c ^^^ (b ||| (d ^^^ (m32 - 1))), (7 * i) % 16)
  let f := (fg.1 + a + md5K.getD i 0 + M.getD fg.2 0) % m32
  (d, (b + rotl f (md5S.getD i 0)) % m32, b, c)

/-- Process one 64-byte block into the chaining state. -/
def md5Block (st : Nat × Nat × Nat × Nat) (blk : List Nat) :
    Nat × Nat × Nat × Nat :=
  let M := toWords blk
  let (a, b, c, d) := (List.range 64).foldl (md5Round M) st
  ((st.1 + a) % m32, (st.2.1 + b) % m32, (st.2.2.1 + c) % m32, (st.2.2.2 + d) % m32)

/-- MD5 digest (16 bytes) of a byte message. -/
def md5 (msg : List Nat) : List Nat :=
  let padded := msg ++ 128 :: List.replicate ((119 - msg.length % 64) % 64) 0
    ++ leBytes 8 (msg.length * 8)
  let (a, b, c, d) := (chunk64 padded).foldl md5Block
    (1732584193, 4023233417, 2562383102, 271733878)
  leBytes 4 a ++ leBytes 4 b ++ leBytes 4 c ++ leBytes 4 d

/-- Lowercase hexadecimal digit. -/
def hexDigit (n : Nat) : Char :=
  if n < 10 then Char.ofNat (48 + n) else Char.ofNat (87 + n)

/-- Lowercase hex string of a byte list. -/
def hexString (bytes : List Nat) : String :=
  String.mk ((bytes.map (fun b => [hexDigit (b / 16), hexDigit (b % 16)])).flatten)

/-- UTF-8 bytes of one code point (Python `str.encode()`). -/
def utf8Char (c : Nat) : List Nat :=
  if c < 128 then [c]
  else if c < 2048 then [192 + c / 64, 128 + c % 64]
  else if c < 65536 then [224 + c / 4096, 128 + (c / 64) % 64, 128 + c % 64]
  else [240 + c / 262144, 128 + (c / 4096) % 64, 128 + (c / 64) % 64, 128 + c % 64]

/-- UTF-8 encoding of a string (Python `str.encode()`). -/
def strBytes (s : String) : List Nat :=
  (s.data.map (fun ch => utf8Char ch.toNat)).flatten

/-- `hashlib.md5(s.encode()).hexdigest()`. -/
def md5hex (s : String) : String := hexString (md5 (strBytes s))

/-- `PaperCollector._get_cache_key`: MD5 hex digest of `f"{source}:{query}"`.
The method reads no instance state, so the embedding takes only the two
arguments. -/
def getCacheKey (query : String) (source : String) : String :=
  md5hex (source ++ ":" ++ query)

/-! ## The cache directory as state -/

/-- What the bytes of one cache file amount to, at the granularity the code
observes:
* `jsonVal v` — the file holds the `json.dump` serialization of `v`, so
  `json.load` recovers exactly `v`;
* `malformed raw` — the file decodes as text but `json.load` raises
  `json.JSONDecodeError` (the only exception the loaders catch);
* `unreadable` — opening or decoding the file raises an `OSError` or
  `UnicodeDecodeError`, which is not a `JSONDecodeError`. -/
inductive Content where
  | jsonVal (v : Json) : Content
  | malformed (raw : String) : Content
  | unreadable : Content

/-- One cache file: its content and its modification time (seconds).
`_save_to_cache` sets the mtime implicitly through the filesystem. -/
structure FileData where
  content : Content
  mtime : Int

/-- A cache directory: file name → file, `none` when no such file exists.
The filesystem keeps at most one file per name, which the function type
reflects. -/
def CacheState := String → Option FileData

/-- The empty cache directory. -/
def emptyCache : CacheState := fun _ => none

/-- Exceptions that escape the embedded functions (the loaders catch only
`json.JSONDecodeError`). -/
inductive PyErr where
  | osError : PyErr

/-- `str(e)` for a propagated exception (message text abbreviated; no claim
depends on the exact wording). -/
def pyErrStr : PyErr → String
  | .osError => "unreadable cache file"

/-- `PaperCollector._load_from_cache(cache_key, max_age_hours)` at clock
`now`.  Returns the Python result — `none` is Python `None` (miss), `some v`
a parsed payload — or the propagated exception, paired with the cache state
after the call (the read path never writes). -/
def collectorLoad (now : Int) (cacheKey : String) (maxAgeHours : Int)
    (st : CacheState) : Except PyErr (Option Json) × CacheState :=
  match st (cacheKey ++ ".json") with
  | none => (.ok none, st)
  | some fd =>
    if now - fd.mtime > 3600 * maxAgeHours then (.ok none, st)
    else
      match fd.content with
      | .jsonVal v => (.ok (some v), st)
      | .malformed _ => (.ok none, st)
      | .unreadable => (.error .osError, st)

/-- `PaperCollector._save_to_cache(cache_key, data)` at clock `now`: writes
`json.dump(data)` to `f"{cache_key}.json"`, replacing any existing file. -/
def collectorSave (now : Int) (cacheKey : String) (data : Json)
    (st : CacheState) : CacheState :=
  fun f => if f = cacheKey ++ ".json" then some ⟨.jsonVal data, now⟩ else st f

/-- `LLMAnalyzer._get_cache_path(paper_id, analysis_type)`:
`f"{paper_id}_{analysis_type}.json"` (relative to the cache directory). -/
def analyzerCachePath (paperId analysisType : String) : String :=
  paperId ++ "_" ++ analysisType ++ ".json"

/-- `LLMAnalyzer._load_from_cache(paper_id, analysis_type)`: no age check at
all — any existing, parseable entry is returned whatever its mtime. -/
def analyzerLoad (paperId analysisType : String) (st : CacheState) :
    Except PyErr (Option Json) × CacheState :=
  match st (analyzerCachePath paperId analysisType) with
  | none => (.ok none, st)
  | some fd =>
    match fd.content with
    | .jsonVal v => (.ok (some v), st)
    | .malformed _ => (.ok none, st)
    | .unreadable => (.error .osError, st)

/-- `LLMAnalyzer._save_to_cache(paper_id, analysis_type, data)` at clock
`now`. -/
def analyzerSave (now : Int) (paperId analysisType : String) (data : Json)
    (st : CacheState) : CacheState :=
  fun f => if f = analyzerCachePath paperId analysisType
    then some ⟨.jsonVal data, now⟩ else st f

/-! ## `PaperCollector.search_semantic_scholar` -/

/-- The pagination loop of `search_semantic_scholar`: `net offset` is the
outcome of the GET at that offset (a page of papers, or a raised
`requests.exceptions.RequestException`).  Returns the collected papers and
the number of network requests issued.  A transport error or an empty page
breaks the loop. -/
def ssLoop (net : Nat → Except Unit (List Json)) (limit : Nat)
    (acc : List Json) (offset : Nat) (reqs : Nat) : List Json × Nat :=
  if _h : acc.length < limit then
    match net offset with
    | .error _ => (acc, reqs + 1)
    | .ok page =>
      if hp : page.isEmpty then (acc, reqs + 1)
      else ssLoop net limit (acc ++ page) (offset + page.length) (reqs + 1)
  else (acc, reqs)
termination_by limit - acc.length
decreasing_by
  simp only [List.length_append]
  have hne : page ≠ [] := by
    intro he
    exact hp (by simp [he])
  have : 0 < page.length := List.length_pos.mpr hne
  omega

/-- The default `fields` list of `search_semantic_scholar`, comma-joined. -/
def defaultFields : String :=
  "paperId,title,abstract,year,authors,citationCount,referenceCount,publicationDate,venue,url,citations,references"

/-- The cache key `search_semantic_scholar` computes for a query and limit
(with the default field list):
`_get_cache_key(f"{query}:{limit}:{','.join(fields)}", "semantic_scholar")`. -/
def ssCacheKey (query : String) (limit : Nat) : String :=
  getCacheKey (query ++ ":" ++ toString limit ++ ":" ++ defaultFields)
    "semantic_scholar"

/-- `search_semantic_scholar(query, limit)` at clock `now` over network
oracle `net`.  Returns the Python return value (a list), the number of
network requests made, and the cache state after the call; or the
exception propagated from the cache read. -/
def searchSemanticScholar (net : Nat → Except Unit (List Json)) (now : Int)
    (query : String) (limit : Nat) (st : CacheState) :
    Except PyErr ((Json × Nat) × CacheState) :=
  let key := ssCacheKey query limit
  match collectorLoad now key 24 st with
  | (.error e, _) => .error e
  | (.ok (some cached), st1) => .ok ((cached, 0), st1)
  | (.ok none, st1) =>
    let (papers, reqs) := ssLoop net limit [] 0 0
    let st2 := collectorSave now key (.arr papers) st1
    .ok ((.arr papers, reqs), st2)

/-! ## `LLMAnalyzer.analyze_paper` and `batch_analyze` -/

/-- A paper dictionary. -/
def Paper := List (String × Json)

/-- Python `dict.get(k)` with no default: the stored value (even `None`),
or absent. -/
def dictGet (k : String) : List (String × Json) → Option Json
  | [] => none
  | (k', v) :: rest => if k' = k then some v else dictGet k rest

/-- Python `d[k] = v` on a dict: replace in place if the key exists,
append otherwise. -/
def setKey (fields : List (String × Json)) (k : String) (v : Json) :
    List (String × Json) :=
  match fields with
  | [] => [(k, v)]
  | (k', v') :: rest =>
    if k' = k then (k, v) :: rest else (k', v') :: setKey rest k v

/-- `paper.get('paperId', paper.get('id', 'unknown'))`. -/
def pidJson (paper : Paper) : Json :=
  match dictGet "paperId" paper with
  | some v => v
  | none =>
    match dictGet "id" paper with
    | some v => v
    | none => .str "unknown"

/-- Outcome of `self._call_openai(messages)` followed by fence-stripping and
`json.loads`, abstracted at the external-collaborator boundary:
* `ok v` — the endpoint returned text whose stripped form parses to `v`;
* `badJson raw` — the stripped text fails `json.loads` (`JSONDecodeError`);
* `raiseErr msg` — `_call_openai` raised (e.g. a transport error). -/
inductive LLMOutcome where
  | ok (v : Json) : LLMOutcome
  | badJson (raw : String) : LLMOutcome
  | raiseErr (msg : String) : LLMOutcome

/-- `str(e)` for the `TypeError` raised by `analysis['paper_id'] = ...` when
`json.loads` produced a non-dict (message abbreviated). -/
def typeErrorStr : String := "analysis result does not support item assignment"

/-- `LLMAnalyzer.analyze_paper(paper, use_cache)` at clock `now` (string
form `nowStr` for `time.strftime`), over LLM oracle `llm`.  Returns the
analysis dictionary and the cache state after the call; the only exception
that can escape is one raised by the cache read, which happens before the
`try` block. -/
def analyzePaper (llm : Paper → LLMOutcome) (now : Int) (nowStr : String)
    (paper : Paper) (useCache : Bool) (st : CacheState) :
    Except PyErr (Json × CacheState) :=
  let pid := pidJson paper
  let pidStr := pyStr pid
  match (if useCache then analyzerLoad pidStr "comprehensive" st
         else (.ok none, st)) with
  | (.error e, _) => .error e
  | (.ok cachedOpt, _) =>
    let cached : Json := match cachedOpt with | some v => v | none => .null
    if cached.isTruthy then .ok (cached, st)
    else
      match llm paper with
      | .raiseErr msg => .ok (.obj [("error", .str msg)], st)
      | .badJson raw =>
        .ok (.obj [("error", .str "Failed to parse analysis"),
                   ("raw_response", .str raw)], st)
      | .ok v =>
        match v with
        | .obj fields =>
          let analysis : Json :=
            .obj (setKey (setKey fields "paper_id" pid) "analyzed_at" (.str nowStr))
          let st1 := if useCache
            then analyzerSave now pidStr "comprehensive" analysis st else st
          .ok (analysis, st1)
        | _ => .ok (.obj [("error", .str typeErrorStr)], st)

/-- One iteration of the `batch_analyze` loop (`analysis_type =
'comprehensive'`, the default): `analyze_paper(paper)` with its default
`use_cache=True`; an exception escaping it is caught and converted to the
error dictionary `{'paper_id': ..., 'error': str(e)}`. -/
def batchStep (llm : Paper → LLMOutcome) (now : Int) (nowStr : String)
    (st : CacheState) (paper : Paper) : Json × CacheState :=
  match analyzePaper llm now nowStr paper true st with
  | .ok r => r
  | .error e => (.obj [("paper_id", pidJson paper),
                       ("error", .str (pyErrStr e))], st)

/-- `LLMAnalyzer.batch_analyze(papers)` (comprehensive analysis): one result
appended per paper, in input order; `time.sleep(delay)` has no semantic
effect and is omitted. -/
def batchAnalyze (llm : Paper → LLMOutcome) (now : Int) (nowStr : String) :
    List Paper → CacheState → List Json × CacheState
  | [], st => ([], st)
  | p :: ps, st =>
    let (r, st1) := batchStep llm now nowStr st p
    let (rs, st2) := batchAnalyze llm now nowStr ps st1
    (r :: rs, st2)

/-- A batch entry is error-shaped when it is a dictionary carrying an
`'error'` key. -/
def errorShaped (j : Json) : Bool :=
  match j with
  | .obj fields => (dictGet "error" fields).isSome
  | _ => false

/-! ## Concrete fixtures used by witnesses and counterexamples -/

/-- A cache directory holding one fresh, well-formed collector entry. -/
def stFresh : CacheState :=
  fun f => if f = "k.json" then some ⟨.jsonVal (.num 7), 1000⟩ else none

/-- A cache directory whose one entry exists but cannot be read (opening or
decoding it raises). -/
def stUnreadable : CacheState :=
  fun f => if f = "k.json" then some ⟨.unreadable, 0⟩ else none

/-- A collector cache directory holding one malformed entry. -/
def stMalformed : CacheState :=
  fun f => if f = "k.json" then some ⟨.malformed "not json", 50⟩ else none

/-- An analyzer cache directory holding one malformed entry. -/
def stMalformedA : CacheState :=
  fun f => if f = analyzerCachePath "p" "comprehensive"
    then some ⟨.malformed "not json", 50⟩ else none

/-- An analyzer cache directory whose one entry is unreadable. -/
def stUnreadableA : CacheState :=
  fun f => if f = analyzerCachePath "p" "comprehensive"
    then some ⟨.unreadable, 0⟩ else none

/-- Batch fixture: the i-th input paper. -/
def batchPaper (i : Nat) : Paper :=
  [("paperId", .str ("p" ++ toString i)), ("title", .str ("Paper " ++ toString i))]

/-- Batch fixture: five papers. -/
def batchPapers5 : List Paper :=
  [batchPaper 1, batchPaper 2, batchPaper 3, batchPaper 4, batchPaper 5]

/-- Batch fixture: the LLM endpoint raises a transport error on paper `p3`
and answers a well-formed analysis object for every other paper. -/
def llmBatch : Paper → LLMOutcome := fun p =>
  if pyStr (pidJson p) = "p3" then .raiseErr "Connection error"
  else .ok (.obj [("summary", .str "fine")])

/-- A network oracle whose every request raises
`requests.exceptions.RequestException`. -/
def netFail : Nat → Except Unit (List Json) := fun _ => .error ()

/-- A paper with neither a `'paperId'` nor an `'id'` key. -/
def paperA : Paper := [("title", .str "A")]

/-- Another, different paper with neither a `'paperId'` nor an `'id'` key. -/
def paperB : Paper := [("abstract", .str "B")]

/-- An LLM oracle answering a fixed well-formed analysis object. -/
def llmA : Paper → LLMOutcome := fun _ => .ok (.obj [("summary", .str "sA")])

/-! ## Sanity checks of the embedded MD5 against standard vectors -/

example : md5hex "" = "d41d8cd98f00b204e9800998ecf8427e" := by decide

example : md5hex "abc" = "900150983cd24fb0d6963f7d28e17f72" := by decide

example : getCacheKey "microservice architecture" "semantic_scholar"
    = "6dcd10712846b6cdcce554f0382d1fed" := by decide

/-! ## Helper lemmas -/

/-- Reading a key right after writing it, within the age limit, yields the
written payload and leaves the state as the write left it. -/
lemma collectorLoad_save_get (st : CacheState) (tW tR : Int) (key : String)
    (p : Json) (H : Int) (h : tR - tW ≤ 3600 * H) :
    collectorLoad tR key H (collectorSave tW key p st)
      = (.ok (some p), collectorSave tW key p st) := by
  simp [collectorLoad, collectorSave, show ¬ tR - tW > 3600 * H by omega]

/-- The analyzer's read of a key it has just written yields the written
payload, whatever the clock values. -/
lemma analyzerLoad_save_get (st : CacheState) (tW : Int) (pid atype : String)
    (p : Json) :
    analyzerLoad pid atype (analyzerSave tW pid atype p st)
      = (.ok (some p), analyzerSave tW pid atype p st) := by
  simp [analyzerLoad, analyzerSave]

/-- `d[k] = v` never produces an empty dictionary. -/
lemma setKey_isEmpty (l : List (String × Json)) (k : String) (v : Json) :
    (setKey l k v).isEmpty = false := by
  cases l with
  | nil => rfl
  | cons x rest =>
    obtain ⟨k', v'⟩ := x
    unfold setKey
    split <;> rfl

/-- `batch_analyze` produces one result per input paper. -/
lemma batchAnalyze_length (llm : Paper → LLMOutcome) (now : Int)
    (nowStr : String) (papers : List Paper) (st : CacheState) :
    ((batchAnalyze llm now nowStr papers st).1).length = papers.length := by
  induction papers generalizing st with
  | nil => rfl
  | cons p ps ih => simp [batchAnalyze, ih]

/-! ## Claim theorems -/

/-- C1: for every fingerprint and JSON-serializable payload, `get`
immediately after `put` (so no expiry applies; a non-negative age limit
suffices since the entry's age is zero) returns a payload structurally equal
to the one stored, in both the collector and the analyzer variant. -/
theorem c1_put_get_roundtrip (st : CacheState) (now : Int) (key : String)
    (p : Json) (H : Int) (hH : 0 ≤ H) :
    (collectorLoad now key H (collectorSave now key p st)).1 = .ok (some p)
    ∧ ∀ (st2 : CacheState) (now2 : Int) (pid atype : String) (p2 : Json),
      (analyzerLoad pid atype (analyzerSave now2 pid atype p2 st2)).1
        = .ok (some p2) := by
  refine ⟨?_, ?_⟩
  · rw [collectorLoad_save_get st now now key p H (by omega)]
  · intro st2 now2 pid atype p2
    rw [analyzerLoad_save_get]

/-- Witness for C1 at a concrete state, key, payload and age limit. -/
theorem c1_witness :
    0 ≤ (24 : Int)
    ∧ ((collectorLoad 0 "k" 24 (collectorSave 0 "k" (.num 1) emptyCache)).1
          = .ok (some (.num 1))
        ∧ ∀ (st2 : CacheState) (now2 : Int) (pid atype : String) (p2 : Json),
          (analyzerLoad pid atype (analyzerSave now2 pid atype p2 st2)).1
            = .ok (some p2)) :=
  ⟨by decide, c1_put_get_roundtrip emptyCache 0 "k" (.num 1) 24 (by decide)⟩

/-- C2: a well-formed collector entry written at `T` is returned exactly
when `t − T ≤ max_age` (so it is returned at `T + max_age − 1` and missed at
`T + max_age + 1`, the age limit being `3600 * H` seconds for `H` hours),
while the analyzer variant returns a well-formed entry whatever its mtime. -/
theorem c2_expiry_boundary (st : CacheState) (k : String) (v : Json)
    (T H : Int) (hst : st (k ++ ".json") = some ⟨.jsonVal v, T⟩) :
    ((collectorLoad (T + 3600 * H - 1) k H st).1 = .ok (some v))
    ∧ ((collectorLoad (T + 3600 * H + 1) k H st).1 = .ok none)
    ∧ (∀ t : Int, (collectorLoad t k H st).1 = .ok (some v) ↔ t - T ≤ 3600 * H)
    ∧ (∀ (st2 : CacheState) (pid atype : String) (v2 : Json) (T2 : Int),
        st2 (analyzerCachePath pid atype) = some ⟨.jsonVal v2, T2⟩ →
        (analyzerLoad pid atype st2).1 = .ok (some v2)) := by
  refine ⟨?_, ?_, ?_, ?_⟩
  · simp [collectorLoad, hst, show ¬ (T + 3600 * H - 1) - T > 3600 * H by omega]
  · simp [collectorLoad, hst, show (T + 3600 * H + 1) - T > 3600 * H by omega]
  · intro t
    by_cases hc : t - T > 3600 * H
    · simp [collectorLoad, hst, hc]
      omega
    · simp [collectorLoad, hst, hc]
      omega
  · intro st2 pid atype v2 T2 h
    simp [analyzerLoad, h]

/-- Witness for C2 at a concrete entry written at time 1000 with a 24-hour
age limit. -/
theorem c2_witness :
    stFresh ("k" ++ ".json") = some ⟨.jsonVal (.num 7), 1000⟩
    ∧ (((collectorLoad (1000 + 3600 * 24 - 1) "k" 24 stFresh).1
          = .ok (some (.num 7)))
        ∧ ((collectorLoad (1000 + 3600 * 24 + 1) "k" 24 stFresh).1 = .ok none)
        ∧ (∀ t : Int, (collectorLoad t "k" 24 stFresh).1 = .ok (some (.num 7))
            ↔ t - 1000 ≤ 3600 * 24)
        ∧ (∀ (st2 : CacheState) (pid atype : String) (v2 : Json) (T2 : Int),
            st2 (analyzerCachePath pid atype) = some ⟨.jsonVal v2, T2⟩ →
            (analyzerLoad pid atype st2).1 = .ok (some v2))) :=
  ⟨rfl, c2_expiry_boundary stFresh "k" (.num 7) 1000 24 rfl⟩

/-- Counterexample to C3 as stated: an entry that exists but is unreadable
(its open/decode raises an `OSError`/`UnicodeDecodeError`, which the code's
`except json.JSONDecodeError` does not catch) makes `get` propagate the
exception instead of returning a miss. -/
theorem c3_counterexample :
    (collectorLoad 0 "k" 24 stUnreadable).1 = .error .osError
    ∧ (collectorLoad 0 "k" 24 stUnreadable).1 ≠ .ok none :=
  ⟨rfl, fun h => Except.noConfusion h⟩

/-- C3 as amended: an entry holding malformed (non-parseable) content
degrades to a miss without an exception, in both variants; but an entry
that exists and is unreadable propagates the exception (in the collector,
once it passes the age check; in the analyzer, always). -/
theorem c3_corruption_tolerance (st : CacheState) (now : Int) (k : String)
    (H : Int) (raw : String) (T : Int)
    (hst : st (k ++ ".json") = some ⟨.malformed raw, T⟩) :
    (collectorLoad now k H st).1 = .ok none
    ∧ (∀ (st2 : CacheState) (pid atype raw2 : String) (T2 : Int),
        st2 (analyzerCachePath pid atype) = some ⟨.malformed raw2, T2⟩ →
        (analyzerLoad pid atype st2).1 = .ok none)
    ∧ (∀ (st3 : CacheState) (T3 : Int),
        st3 (k ++ ".json") = some ⟨.unreadable, T3⟩ → now - T3 ≤ 3600 * H →
        (collectorLoad now k H st3).1 = .error .osError)
    ∧ (∀ (st4 : CacheState) (pid atype : String) (T4 : Int),
        st4 (analyzerCachePath pid atype) = some ⟨.unreadable, T4⟩ →
        (analyzerLoad pid atype st4).1 = .error .osError) := by
  refine ⟨?_, ?_, ?_, ?_⟩
  · by_cases hc : now - T > 3600 * H <;> simp [collectorLoad, hst, hc]
  · intro st2 pid atype raw2 T2 h
    simp [analyzerLoad, h]
  · intro st3 T3 h hfresh
    simp [collectorLoad, h, show ¬ now - T3 > 3600 * H by omega]
  · intro st4 pid atype T4 h
    simp [analyzerLoad, h]

/-- Witness for the amended C3 at a concrete malformed entry. -/
theorem c3_witness :
    stMalformed ("k" ++ ".json") = some ⟨.malformed "not json", 50⟩
    ∧ ((collectorLoad 0 "k" 24 stMalformed).1 = .ok none
        ∧ (∀ (st2 : CacheState) (pid atype raw2 : String) (T2 : Int),
            st2 (analyzerCachePath pid atype) = some ⟨.malformed raw2, T2⟩ →
            (analyzerLoad pid atype st2).1 = .ok none)
        ∧ (∀ (st3 : CacheState) (T3 : Int),
            st3 ("k" ++ ".json") = some ⟨.unreadable, T3⟩ →
            0 - T3 ≤ 3600 * 24 →
            (collectorLoad 0 "k" 24 st3).1 = .error .osError)
        ∧ (∀ (st4 : CacheState) (pid atype : String) (T4 : Int),
            st4 (analyzerCachePath pid atype) = some ⟨.unreadable, T4⟩ →
            (analyzerLoad pid atype st4).1 = .error .osError)) :=
  ⟨rfl, c3_corruption_tolerance stMalformed 0 "k" 24 "not json" 50 rfl⟩

/-- C4: the fingerprint is a pure, deterministic function of the logical
key alone — computing it twice gives the identical result, and it equals
the MD5 hex digest of `source ++ ":" ++ query`, with no dependence on any
instance configuration, randomness or environment (none appear in its
definition). -/
theorem c4_fingerprint_deterministic : ∀ q s : String,
    getCacheKey q s = getCacheKey q s
    ∧ getCacheKey q s = md5hex (s ++ ":" ++ q) :=
  fun _ _ => ⟨rfl, rfl⟩

/-- Counterexample to C5 as stated: the two distinct logical keys
`(source, query) = ("a", "b:c")` and `("a:b", "c")` compose to the same
key string `"a:b:c"`, hence share one fingerprint. -/
theorem c5_counterexample :
    ((("a", "b:c") : String × String) ≠ ("a:b", "c"))
    ∧ getCacheKey "b:c" "a" = getCacheKey "c" "a:b" :=
  ⟨by decide, rfl⟩

/-- C5 as amended: distinct fingerprints do imply distinct logical keys,
but the converse fails — distinct `(source, query)` pairs can collide
because the colon-composed key string is ambiguous (and because MD5 itself
admits collisions). -/
theorem c5_fingerprint_sensitivity : ∀ q1 s1 q2 s2 : String,
    getCacheKey q1 s1 ≠ getCacheKey q2 s2 →
    ((s1, q1) : String × String) ≠ (s2, q2) := by
  intro q1 s1 q2 s2 h he
  apply h
  cases he
  rfl

/-- Witness for the amended C5 at two concrete keys with distinct
fingerprints. -/
theorem c5_witness :
    getCacheKey "a" "x" ≠ getCacheKey "b" "x"
    ∧ ((("x", "a") : String × String) ≠ ("x", "b")) :=
  ⟨by decide, c5_fingerprint_sensitivity "a" "x" "b" "x" (by decide)⟩

/-- C6: a second `put` under the same fingerprint yields exactly the state
of a single `put` of the new payload (full replacement), a fresh `get` then
returns the new payload, and a `put` touches no other fingerprint's slot —
in both variants.  At most one entry per fingerprint is structural: the
store maps each file name to at most one file. -/
theorem c6_put_overwrites (st : CacheState) (t1 t2 : Int) (k : String)
    (p1 p2 : Json) (H : Int) (hH : 0 ≤ H) :
    (∀ f, collectorSave t2 k p2 (collectorSave t1 k p1 st) f
        = collectorSave t2 k p2 st f)
    ∧ (collectorLoad t2 k H
        (collectorSave t2 k p2 (collectorSave t1 k p1 st))).1 = .ok (some p2)
    ∧ (∀ f, f ≠ k ++ ".json" → collectorSave t2 k p2 st f = st f)
    ∧ (∀ (st2 : CacheState) (u1 u2 : Int) (pid atype : String) (q1 q2 : Json),
        (∀ f, analyzerSave u2 pid atype q2 (analyzerSave u1 pid atype q1 st2) f
            = analyzerSave u2 pid atype q2 st2 f)
        ∧ (analyzerLoad pid atype
            (analyzerSave u2 pid atype q2
              (analyzerSave u1 pid atype q1 st2))).1 = .ok (some q2)
        ∧ (∀ f, f ≠ analyzerCachePath pid atype →
            analyzerSave u2 pid atype q2 st2 f = st2 f)) := by
  refine ⟨?_, ?_, ?_, ?_⟩
  · intro f
    by_cases hf : f = k ++ ".json" <;> simp [collectorSave, hf]
  · rw [collectorLoad_save_get _ t2 t2 k p2 H (by omega)]
  · intro f hf
    simp [collectorSave, hf]
  · intro st2 u1 u2 pid atype q1 q2
    refine ⟨?_, ?_, ?_⟩
    · intro f
      by_cases hf : f = analyzerCachePath pid atype <;> simp [analyzerSave, hf]
    · rw [analyzerLoad_save_get]
    · intro f hf
      simp [analyzerSave, hf]

/-- Witness for C6 at a concrete state, key and payloads. -/
theorem c6_witness :
    0 ≤ (24 : Int)
    ∧ ((∀ f, collectorSave 2 "k" (.num 2)
            (collectorSave 1 "k" (.num 1) emptyCache) f
          = collectorSave 2 "k" (.num 2) emptyCache f)
        ∧ (collectorLoad 2 "k" 24
            (collectorSave 2 "k" (.num 2)
              (collectorSave 1 "k" (.num 1) emptyCache))).1 = .ok (some (.num 2))
        ∧ (∀ f, f ≠ "k" ++ ".json" →
            collectorSave 2 "k" (.num 2) emptyCache f = emptyCache f)
        ∧ (∀ (st2 : CacheState) (u1 u2 : Int) (pid atype : String)
              (q1 q2 : Json),
            (∀ f, analyzerSave u2 pid atype q2
                (analyzerSave u1 pid atype q1 st2) f
              = analyzerSave u2 pid atype q2 st2 f)
            ∧ (analyzerLoad pid atype
                (analyzerSave u2 pid atype q2
                  (analyzerSave u1 pid atype q1 st2))).1 = .ok (some q2)
            ∧ (∀ f, f ≠ analyzerCachePath pid atype →
                analyzerSave u2 pid atype q2 st2 f = st2 f))) :=
  ⟨by decide, c6_put_overwrites emptyCache 1 2 "k" (.num 1) (.num 2) 24 (by decide)⟩

/-- C7: `get` never modifies the cache state — whatever the key, the age
limit, and the stored entry (absent, fresh, expired, malformed or
unreadable), the state after the read is the state before it, in both
variants. -/
theorem c7_get_never_writes : ∀ (now : Int) (k : String) (H : Int)
    (st : CacheState),
    (collectorLoad now k H st).2 = st
    ∧ ∀ (pid atype : String) (st2 : CacheState),
      (analyzerLoad pid atype st2).2 = st2 := by
  intro now k H st
  constructor
  · cases hst : st (k ++ ".json") with
    | none => simp [collectorLoad, hst]
    | some fd =>
      cases hc : fd.content <;> by_cases hexp : now - fd.mtime > 3600 * H <;>
        simp [collectorLoad, hst, hc, hexp]
  · intro pid atype st2
    cases hst : st2 (analyzerCachePath pid atype) with
    | none => simp [analyzerLoad, hst]
    | some fd =>
      cases hc : fd.content <;> simp [analyzerLoad, hst, hc]

/-- C8: `batch_analyze` yields exactly one result per input paper, in input
order (the head of the batch result is the result of the head paper, the
tail continues with the state the head left behind); concretely, with five
papers where the LLM call for the third raises a transport error, the batch
returns five entries, the third error-shaped and the others carrying their
normal analysis (tagged with their own paper id), the failure aborting
nothing. -/
theorem c8_batch_resilience :
    (∀ (llm : Paper → LLMOutcome) (now : Int) (nowStr : String)
        (papers : List Paper) (st : CacheState),
      ((batchAnalyze llm now nowStr papers st).1).length = papers.length)
    ∧ (∀ (llm : Paper → LLMOutcome) (now : Int) (nowStr : String)
        (p : Paper) (ps : List Paper) (st : CacheState),
      (batchAnalyze llm now nowStr (p :: ps) st).1
        = (batchStep llm now nowStr st p).1
          :: (batchAnalyze llm now nowStr ps (batchStep llm now nowStr st p).2).1)
    ∧ (((batchAnalyze llmBatch 0 "ts" batchPapers5 emptyCache).1).map errorShaped
        = [false, false, true, false, false])
    ∧ (((batchAnalyze llmBatch 0 "ts" batchPapers5 emptyCache).1).map
          (fun r => match r with | .obj fs => dictGet "paper_id" fs | _ => none)
        = [some (.str "p1"), some (.str "p2"), none, some (.str "p4"),
           some (.str "p5")]) := by
  refine ⟨batchAnalyze_length, ?_, ?_, ?_⟩
  · intro llm now nowStr p ps st
    rfl
  · rfl
  · rfl

/-- C9: on a cache miss, `search_semantic_scholar` unconditionally writes
whatever list the pagination loop collected (empty or truncated when a
transport error interrupts it) to the cache before returning it, and any
identical call within the 24-hour age limit afterwards returns that same
list from the cache with zero network requests. -/
theorem c9_miss_caches_whatever (net : Nat → Except Unit (List Json))
    (now : Int) (q : String) (limit : Nat) (st : CacheState)
    (hmiss : st (ssCacheKey q limit ++ ".json") = none) :
    ∃ (papers : List Json) (reqs : Nat),
      searchSemanticScholar net now q limit st
        = .ok ((.arr papers, reqs),
               collectorSave now (ssCacheKey q limit) (.arr papers) st)
      ∧ collectorSave now (ssCacheKey q limit) (.arr papers) st
          (ssCacheKey q limit ++ ".json")
          = some ⟨.jsonVal (.arr papers), now⟩
      ∧ ∀ (net2 : Nat → Except Unit (List Json)) (t : Int),
          t - now ≤ 3600 * 24 →
          searchSemanticScholar net2 t q limit
            (collectorSave now (ssCacheKey q limit) (.arr papers) st)
            = .ok ((.arr papers, 0),
                   collectorSave now (ssCacheKey q limit) (.arr papers) st) := by
  refine ⟨(ssLoop net limit [] 0 0).1, (ssLoop net limit [] 0 0).2, ?_, ?_, ?_⟩
  · have hload : collectorLoad now (ssCacheKey q limit) 24 st = (.ok none, st) := by
      simp [collectorLoad, hmiss]
    simp [searchSemanticScholar, hload]
  · simp [collectorSave]
  · intro net2 t ht
    have hload := collectorLoad_save_get st now t (ssCacheKey q limit)
      (.arr (ssLoop net limit [] 0 0).1) 24 (by omega)
    simp [searchSemanticScholar, hload]

/-- Witness for C9: a first call whose every network request fails, from an
empty cache. -/
theorem c9_witness :
    emptyCache (ssCacheKey "microservice architecture" 50 ++ ".json") = none
    ∧ ∃ (papers : List Json) (reqs : Nat),
        searchSemanticScholar netFail 100 "microservice architecture" 50
            emptyCache
          = .ok ((.arr papers, reqs),
                 collectorSave 100 (ssCacheKey "microservice architecture" 50)
                   (.arr papers) emptyCache)
        ∧ collectorSave 100 (ssCacheKey "microservice architecture" 50)
            (.arr papers) emptyCache
            (ssCacheKey "microservice architecture" 50 ++ ".json")
            = some ⟨.jsonVal (.arr papers), 100⟩
        ∧ ∀ (net2 : Nat → Except Unit (List Json)) (t : Int),
            t - 100 ≤ 3600 * 24 →
            searchSemanticScholar net2 t "microservice architecture" 50
              (collectorSave 100 (ssCacheKey "microservice architecture" 50)
                (.arr papers) emptyCache)
              = .ok ((.arr papers, 0),
                     collectorSave 100 (ssCacheKey "microservice architecture" 50)
                       (.arr papers) emptyCache) :=
  ⟨rfl, c9_miss_caches_whatever netFail 100 "microservice architecture" 50
    emptyCache rfl⟩

/-- C10: papers lacking both a `'paperId'` and an `'id'` key all get the
cache identifier `"unknown"`, so they share one cache slot per analysis
type: after a successful cached analysis of one such paper, `analyze_paper`
on any other such paper returns the first paper's cached analysis — whatever
its own LLM oracle would have answered — and leaves the state unchanged. -/
theorem c10_missing_ids_share_slot (p1 p2 : Paper)
    (llm1 llm2 : Paper → LLMOutcome) (t1 t2 : Int) (s1 s2 : String)
    (st : CacheState) (kvs : List (String × Json))
    (h1a : dictGet "paperId" p1 = none) (h1b : dictGet "id" p1 = none)
    (h2a : dictGet "paperId" p2 = none) (h2b : dictGet "id" p2 = none)
    (hllm : llm1 p1 = .ok (.obj kvs))
    (hmiss : st (analyzerCachePath "unknown" "comprehensive") = none) :
    pyStr (pidJson p1) = "unknown" ∧ pyStr (pidJson p2) = "unknown"
    ∧ ∃ A : Json,
        A = .obj (setKey (setKey kvs "paper_id" (.str "unknown"))
              "analyzed_at" (.str s1))
        ∧ analyzePaper llm1 t1 s1 p1 true st
            = .ok (A, analyzerSave t1 "unknown" "comprehensive" A st)
        ∧ analyzePaper llm2 t2 s2 p2 true
              (analyzerSave t1 "unknown" "comprehensive" A st)
            = .ok (A, analyzerSave t1 "unknown" "comprehensive" A st) := by
  have hp1 : pidJson p1 = .str "unknown" := by
    simp [pidJson, h1a, h1b]
  have hp2 : pidJson p2 = .str "unknown" := by
    simp [pidJson, h2a, h2b]
  refine ⟨by rw [hp1]; rfl, by rw [hp2]; rfl, _, rfl, ?_, ?_⟩
  · simp [analyzePaper, hp1, pyStr, analyzerLoad, hmiss, Json.isTruthy, hllm]
  · have hA := analyzerLoad_save_get st t1 "unknown" "comprehensive"
      (.obj (setKey (setKey kvs "paper_id" (.str "unknown"))
        "analyzed_at" (.str s1)))
    simp [analyzePaper, hp2, pyStr, hA, Json.isTruthy, setKey_isEmpty]

/-- Witness for C10: two concretely different papers, both lacking id keys,
the second served the first one's cached analysis. -/
theorem c10_witness :
    dictGet "paperId" paperA = none ∧ dictGet "id" paperA = none
    ∧ dictGet "paperId" paperB = none ∧ dictGet "id" paperB = none
    ∧ llmA paperA = .ok (.obj [("summary", .str "sA")])
    ∧ emptyCache (analyzerCachePath "unknown" "comprehensive") = none
    ∧ (pyStr (pidJson paperA) = "unknown" ∧ pyStr (pidJson paperB) = "unknown"
        ∧ ∃ A : Json,
            A = .obj (setKey (setKey [("summary", .str "sA")] "paper_id"
                  (.str "unknown")) "analyzed_at" (.str "d1"))
            ∧ analyzePaper llmA 10 "d1" paperA true emptyCache
                = .ok (A, analyzerSave 10 "unknown" "comprehensive" A emptyCache)
            ∧ analyzePaper (fun _ => .ok (.obj [("summary", .str "sB")])) 20 "d2"
                  paperB true
                  (analyzerSave 10 "unknown" "comprehensive" A emptyCache)
                = .ok (A, analyzerSave 10 "unknown" "comprehensive" A
                    emptyCache)) :=
  ⟨rfl, rfl, rfl, rfl, rfl, rfl,
    c10_missing_ids_share_slot paperA paperB llmA
      (fun _ => .ok (.obj [("summary", .str "sB")])) 10 20 "d1" "d2"
      emptyCache [("summary", .str "sA")] rfl rfl rfl rfl rfl rfl⟩

end SAV
